import Mathlib

/-
A shallow embedding of the rlog logging core (rightscale/rlog, Go).

Go channels are modelled as bounded FIFO queues (capacity plus buffer list,
front of the list = oldest element); a non-blocking send succeeds exactly when
the buffer holds fewer elements than the capacity.  Go maps filled by
createAndFillStringHt are modelled as association lists with the Go zero-value
lookup (missing key yields false).  Runtime facilities that the core merely
consumes (runtime.Caller, runtime.Stack, time.Now, fmt.Sprintf) are supplied
through an explicit oracle record: the embedding is a function of the program
state and of those runtime answers.  A Go panic (log.Panic, index out of
range) is modelled as Except.error.
-/

namespace Rlog

/-- Severity type (Go common.RlogSeverity is a uint). -/
abbrev RlogSeverity := Nat

/-- SeverityFatal: first iota constant of the severity block. -/
def SeverityFatal : RlogSeverity := 0

/-- SeverityError: second iota constant. -/
def SeverityError : RlogSeverity := 1

/-- SeverityWarning: third iota constant. -/
def SeverityWarning : RlogSeverity := 2

/-- SeverityInfo: fourth iota constant. -/
def SeverityInfo : RlogSeverity := 3

/-- SeverityDebug: fifth iota constant. -/
def SeverityDebug : RlogSeverity := 4

/-- common.RlogMsg: the immutable log record handed to every module. -/
structure RlogMsg where
  Msg : String
  Timestamp : String
  Severity : RlogSeverity
  Pc : Nat
  StackTrace : String
deriving DecidableEq, Repr

/-- A buffered Go channel: fixed capacity and a FIFO buffer
(front = oldest queued element). -/
structure Chan (α : Type) where
  cap : Nat
  buf : List α
deriving DecidableEq, Repr

/-- RlogConfig (part_013 lines 30-36).  The two tag maps are association
lists standing for map[string]bool; none stands for a nil map. -/
structure RlogConfig where
  ChanCapacity : Nat
  FlushTimeout : Nat
  Severity : RlogSeverity
  tagsDisabledExcept : Option (List (String × Bool))
  tagsEnabledExcept : Option (List (String × Bool))
deriving DecidableEq, Repr

/-- Go map read with zero-value default: m[tag] is false when tag is absent. -/
def htLookup (m : List (String × Bool)) (tag : String) : Bool :=
  ((m.find? (fun p => p.1 == tag)).map (fun p => p.2)).getD false

/-- createAndFillStringHt (part_013 lines 168-175): every listed tag maps to true. -/
def createAndFillStringHt (tags : List String) : List (String × Bool) :=
  tags.map (fun t => (t, true))

/-- EnableTagsExcept (part_013 lines 155-158). -/
def EnableTagsExcept (c : RlogConfig) (tags : List String) : RlogConfig :=
  { c with tagsDisabledExcept := none,
           tagsEnabledExcept := some (createAndFillStringHt tags) }

/-- DisableTagsExcept (part_013 lines 162-165). -/
def DisableTagsExcept (c : RlogConfig) (tags : List String) : RlogConfig :=
  { c with tagsDisabledExcept := some (createAndFillStringHt tags),
           tagsEnabledExcept := none }

/-- GetDefaultConfig (part_013 lines 72-79). -/
def GetDefaultConfig : RlogConfig :=
  { ChanCapacity := 100, FlushTimeout := 2, Severity := SeverityInfo,
    tagsDisabledExcept := none, tagsEnabledExcept := none }

/-- The Go zero value *new(RlogConfig), as assigned by ResetState. -/
def emptyRlogConfig : RlogConfig :=
  { ChanCapacity := 0, FlushTimeout := 0, Severity := 0,
    tagsDisabledExcept := none, tagsEnabledExcept := none }

/-- isFilteredSeverity (part_007 lines 128-130): drop when the numeric
severity exceeds the configured threshold. -/
def isFilteredSeverity (cfg : RlogConfig) (severity : RlogSeverity) : Bool :=
  severity > cfg.Severity

/-- isFilteredTag (part_007 lines 134-145): the enabled-except map is
consulted first, then the disabled-except map, else no filtering. -/
def isFilteredTag (cfg : RlogConfig) (tag : String) : Bool :=
  match cfg.tagsEnabledExcept with
  | some m => htLookup m tag
  | none =>
    match cfg.tagsDisabledExcept with
    | some m => !(htLookup m tag)
    | none => false

/-- The five severity names as the spec lists them. -/
inductive SevName where
  | fatal
  | error
  | warning
  | info
  | debug
deriving DecidableEq, Repr

/-- The numeric constant the source assigns to each severity name. -/
def encodeSeverity : SevName → RlogSeverity
  | .fatal => SeverityFatal
  | .error => SeverityError
  | .warning => SeverityWarning
  | .info => SeverityInfo
  | .debug => SeverityDebug

/-- Modelled from the spec: position of each severity in the most-severe-first
listing "{Fatal, Error, Warning, Info, Debug} with Fatal the most severe"
(rank 0 = most severe). -/
def specSeverityRank : SevName → Nat
  | .fatal => 0
  | .error => 1
  | .warning => 2
  | .info => 3
  | .debug => 4

/-- Modelled from the spec: s is strictly less severe than t when it ranks
strictly further from Fatal in the spec ordering. -/
def strictlyLessSevere (s t : SevName) : Prop :=
  specSeverityRank t < specSeverityRank s

/-- nonBlockingChanRead (moduleCommunication.go lines 82-89): take the oldest
queued element if there is one, never block.  Returns the element read (none
when the channel is empty) together with the channel afterwards. -/
def nonBlockingChanRead (c : Chan α) : Option α × Chan α :=
  match c.buf with
  | [] => (none, c)
  | x :: xs => (some x, { c with buf := xs })

/-- The retry loop of pushToChannelsHelper (moduleCommunication.go lines
63-76), with the remaining retry budget as fuel.  Each round is one
non-blocking send attempt: it succeeds exactly when the buffer is below
capacity; on failure the oldest queued element is evicted with
nonBlockingChanRead and the send is retried.  Returns the channel afterwards
and the number of send attempts made. -/
def pushToChannelsHelperLoop (msg : α) : Nat → Chan α → Chan α × Nat
  | 0, c => (c, 0)
  | Nat.succ n, c =>
    if c.buf.length < c.cap then
      ({ c with buf := c.buf ++ [msg] }, 1)
    else
      let c1 := (nonBlockingChanRead c).2
      let r := pushToChannelsHelperLoop msg n c1
      (r.1, r.2 + 1)

/-- pushToChannelsHelper (moduleCommunication.go lines 61-77): at most three
send attempts, then the new message is silently dropped. -/
def pushToChannelsHelper (c : Chan α) (msg : α) : Chan α :=
  (pushToChannelsHelperLoop msg 3 c).1

/-- pushToChannels (moduleCommunication.go lines 43-55).  The msgChannels
registry is a list whose entries are either a message channel (some c, the
type assertion succeeds) or a value of some other shape (none, the assertion
fails and log.Panic aborts the process - modelled as Except.error). -/
def pushToChannels : List (Option (Chan RlogMsg)) → RlogMsg →
    Except String (List (Chan RlogMsg))
  | [], _ => .ok []
  | some c :: rest, msg =>
    match pushToChannels rest msg with
    | .ok cs => .ok (pushToChannelsHelper c msg :: cs)
    | .error e => .error e
  | none :: _, _ => .error "type assertion for msg channel failed"

/-- flushHelper (moduleCommunication.go lines 99-118).  The capacity-1
flush-request channel is abstracted to the flag pending (does it already hold
an unconsumed request?); whether the module deposits an acknowledgment on the
fresh capacity-1 response channel before the configured timeout expires is
the oracle acksWithinTimeout.  pending means the non-blocking send takes the
default branch and the helper reports failure at once; otherwise the helper
reports exactly the outcome of the ack-versus-timeout wait. -/
def flushHelper (pending : Bool) (acksWithinTimeout : Bool) : Bool :=
  if pending then false else acksWithinTimeout

/-- Flush (part_013 lines 319-330).  Each registry entry is either a flush
channel with its module behaviour (some (pending, acksWithinTimeout)) or a
value of some other shape (none, the type assertion fails).  On an ill-typed
entry the source only prints a line with log.Printf and continues with the
next entry, so the model skips it; the per-module results (which the Go code
discards) are collected so that progression past a bad entry is observable. -/
def Flush : List (Option (Bool × Bool)) → List Bool
  | [] => []
  | some pa :: rest => flushHelper pa.1 pa.2 :: Flush rest
  | none :: rest => Flush rest

/-- strings.SplitAfterN on the separator newline: split off the leading chunk
up to and including the first newline, or none when no newline remains. -/
def splitLine : List Char → Option (List Char × List Char)
  | [] => none
  | ch :: cs =>
    if ch = '\n' then some ([ch], cs)
    else
      match splitLine cs with
      | none => none
      | some (p, r) => some (ch :: p, r)

/-- strings.SplitAfterN(s, newline, n): at most n substrings, each keeping its
trailing newline, the last one being the unsplit remainder. -/
def splitAfterN : Nat → List Char → List (List Char)
  | 0, _ => []
  | 1, cs => [cs]
  | Nat.succ (Nat.succ n), cs =>
    match splitLine cs with
    | none => [cs]
    | some (p, r) => p :: splitAfterN (Nat.succ n) r

/-- strings.TrimRight(s, newline): drop trailing newline characters. -/
def trimRightNewlines (cs : List Char) : List Char :=
  (cs.reverse.dropWhile (fun ch => ch = '\n')).reverse

/-- getStackTrace (part_007 lines 72-87) as a function of the raw text that
runtime.Stack wrote: split after newlines into at most 8 pieces, index piece
7 (the remainder after the first 7 lines, which are rlog-internal frames) and
trim trailing newlines.  When the raw text has fewer than 7 newlines the
index is out of range and Go panics: modelled as none. -/
def getStackTrace (raw : String) : Option String :=
  match (splitAfterN 8 raw.data).get? 7 with
  | none => none
  | some piece => some (String.mk (trimRightNewlines piece))

/-- The runtime answers genericLogHandler consumes: runtime.Caller(3)
(callerOk, pc, file, line), runtime.Stack (rawStack) and
time.Now().Format(time.Stamp) (timestamp). -/
structure CallOracle where
  callerOk : Bool
  pc : Nat
  file : String
  line : Nat
  rawStack : String
  timestamp : String
deriving DecidableEq, Repr

/-- getLogCallPos (part_007 lines 149-164): on runtime.Caller failure the
sentinel (0, unknown, 0) is substituted. -/
def getLogCallPos (o : CallOracle) : Nat × String × Nat :=
  if o.callerOk then (o.pc, o.file, o.line) else (0, "unknown", 0)

/-- logPieces (part_007 lines 20-29). -/
structure logPieces where
  level : String
  msg : String
  severity : RlogSeverity
  posInfo : Bool
  file : String
  line : Nat
  pc : Nat
  stackTrace : String
deriving DecidableEq, Repr

/-- formatHeaders (part_007 lines 111-124): always the level in angle
brackets, then file and line exactly when posInfo is set. -/
def formatHeaders (posInfo : Bool) (level : String) (file : String) (line : Nat) : String :=
  let header := "<" ++ level ++ "> "
  if posInfo then header ++ "[" ++ file ++ ":" ++ toString line ++ "] " else header

/-- generateLogMsg (part_007 lines 91-105); time.Now is the oracle input. -/
def generateLogMsg (lp : logPieces) (now : String) : RlogMsg :=
  { Msg := formatHeaders lp.posInfo lp.level lp.file lp.line ++ lp.msg
    Timestamp := now
    Severity := lp.severity
    Pc := lp.pc
    StackTrace := lp.stackTrace }

/-- The record-construction section of genericLogHandler (part_007 lines
50-63): resolve the call position, capture a stack trace only when the
severity is at most SeverityError, build the logPieces and run
generateLogMsg.  none propagates the getStackTrace panic. -/
def buildLogRecord (level msg : String) (severity : RlogSeverity) (posInfo : Bool)
    (o : CallOracle) : Option RlogMsg :=
  let pos := getLogCallPos o
  match (if severity ≤ SeverityError then getStackTrace o.rawStack else some "") with
  | none => none
  | some trace =>
    some (generateLogMsg
      { level := level, msg := msg, severity := severity, posInfo := posInfo,
        file := pos.2.1, line := pos.2.2, pc := pos.1, stackTrace := trace } o.timestamp)

/-- The package-level singleton state (part_013 lines 45-57): the initialized
flag, the active configuration and the three registries.  Modules are opaque
to the claims settled here, so the activeModules registry tracks only
arity. -/
structure GlobalState where
  initialized : Bool
  config : RlogConfig
  msgChannels : List (Option (Chan RlogMsg))
  flushChannels : List (Option (Bool × Bool))
  activeModules : List Unit
deriving DecidableEq, Repr

/-- genericLogHandler (part_007 lines 37-68).  The formatted argument is the
fmt.Sprintf expansion of format and a, which the handler computes first and
treats as opaque text.  Not-initialized reports false without touching
anything; a message filtered by severity or tag reports true with the state
unchanged; otherwise the record is built and broadcast, and a log.Panic
inside pushToChannels (ill-typed registry entry) or an out-of-range stack
split surfaces as Except.error. -/
def genericLogHandler (st : GlobalState) (level tag formatted : String)
    (severity : RlogSeverity) (posInfo : Bool) (o : CallOracle) :
    Except String (Bool × GlobalState) :=
  if !st.initialized then
    .ok (false, st)
  else if isFilteredSeverity st.config severity || isFilteredTag st.config tag then
    .ok (true, st)
  else
    match buildLogRecord level formatted severity posInfo o with
    | none => .error "index out of range"
    | some sysLogMsg =>
      match pushToChannels st.msgChannels sysLogMsg with
      | .error e => .error e
      | .ok cs => .ok (true, { st with msgChannels := cs.map some })

/-- Fatal (part_013 lines 181-183): level FATAL, no tag, posInfo true.  The
Go entry points discard the handler result, so only the state comes back.
The logger methods (part_013 lines 187-189 and so on) have bodies identical
to the package-level functions and are not repeated. -/
def Fatal (st : GlobalState) (formatted : String) (o : CallOracle) :
    Except String GlobalState :=
  (genericLogHandler st "FATAL" "" formatted SeverityFatal true o).map (fun r => r.2)

/-- Error (part_013 lines 193-195): level ERROR, no tag, posInfo true. -/
def Error (st : GlobalState) (formatted : String) (o : CallOracle) :
    Except String GlobalState :=
  (genericLogHandler st "ERROR" "" formatted SeverityError true o).map (fun r => r.2)

/-- Warning (part_013 lines 205-207): level WARNING, no tag, posInfo false. -/
def Warning (st : GlobalState) (formatted : String) (o : CallOracle) :
    Except String GlobalState :=
  (genericLogHandler st "WARNING" "" formatted SeverityWarning false o).map (fun r => r.2)

/-- Info (part_013 lines 217-219): level INFO, no tag, posInfo false. -/
def Info (st : GlobalState) (formatted : String) (o : CallOracle) :
    Except String GlobalState :=
  (genericLogHandler st "INFO" "" formatted SeverityInfo false o).map (fun r => r.2)

/-- Debug (part_013 lines 229-231): level DEBUG, no tag, posInfo false. -/
def Debug (st : GlobalState) (formatted : String) (o : CallOracle) :
    Except String GlobalState :=
  (genericLogHandler st "DEBUG" "" formatted SeverityDebug false o).map (fun r => r.2)

/-- FatalT (part_013 lines 243-245): tagged, posInfo true. -/
def FatalT (st : GlobalState) (tag formatted : String) (o : CallOracle) :
    Except String GlobalState :=
  (genericLogHandler st "FATAL" tag formatted SeverityFatal true o).map (fun r => r.2)

/-- ErrorT (part_013 lines 255-257): tagged, posInfo true. -/
def ErrorT (st : GlobalState) (tag formatted : String) (o : CallOracle) :
    Except String GlobalState :=
  (genericLogHandler st "ERROR" tag formatted SeverityError true o).map (fun r => r.2)

/-- WarningT (part_013 lines 267-269): tagged, posInfo false. -/
def WarningT (st : GlobalState) (tag formatted : String) (o : CallOracle) :
    Except String GlobalState :=
  (genericLogHandler st "WARNING" tag formatted SeverityWarning false o).map (fun r => r.2)

/-- InfoT (part_013 lines 279-281): tagged, posInfo false. -/
def InfoT (st : GlobalState) (tag formatted : String) (o : CallOracle) :
    Except String GlobalState :=
  (genericLogHandler st "INFO" tag formatted SeverityInfo false o).map (fun r => r.2)

/-- DebugT (part_013 lines 291-293): tagged, posInfo false. -/
def DebugT (st : GlobalState) (tag formatted : String) (o : CallOracle) :
    Except String GlobalState :=
  (genericLogHandler st "DEBUG" tag formatted SeverityDebug false o).map (fun r => r.2)

/-- ResetState (part_013 lines 337-345): only when initialized does it reset
the configuration to the zero value, empty the three registries and clear the
flag; otherwise the body is skipped entirely. -/
def ResetState (st : GlobalState) : GlobalState :=
  if st.initialized then
    { initialized := false, config := emptyRlogConfig,
      msgChannels := [], flushChannels := [], activeModules := [] }
  else st

/-- Unfolding equation of the retry loop at a successor fuel value. -/
theorem pushToChannelsHelperLoop_succ (msg : α) (n : Nat) (c : Chan α) :
    pushToChannelsHelperLoop msg (n + 1) c =
      if c.buf.length < c.cap then ({ c with buf := c.buf ++ [msg] }, 1)
      else ((pushToChannelsHelperLoop msg n (nonBlockingChanRead c).2).1,
            (pushToChannelsHelperLoop msg n (nonBlockingChanRead c).2).2 + 1) := rfl

/-- The retry loop never makes more send attempts than its fuel allows. -/
theorem pushToChannelsHelperLoop_sends_le (msg : α) :
    ∀ (n : Nat) (c : Chan α), (pushToChannelsHelperLoop msg n c).2 ≤ n := by
  intro n
  induction n with
  | zero => intro c; exact Nat.le_refl 0
  | succ k ih =>
    intro c
    rw [pushToChannelsHelperLoop_succ]
    by_cases h : c.buf.length < c.cap
    · rw [if_pos h]; exact Nat.succ_le_succ (Nat.zero_le k)
    · rw [if_neg h]; exact Nat.succ_le_succ (ih _)

/-- A channel with spare capacity accepts the message on the first attempt. -/
theorem pushToChannelsHelper_capacity_free (c : Chan α) (m : α)
    (h : c.buf.length < c.cap) :
    pushToChannelsHelper c m = { c with buf := c.buf ++ [m] } := by
  have h3 : pushToChannelsHelperLoop m 3 c = ({ c with buf := c.buf ++ [m] }, 1) := by
    rw [show (3 : Nat) = 2 + 1 from rfl, pushToChannelsHelperLoop_succ, if_pos h]
  simp [pushToChannelsHelper, h3]

/-- Broadcasting over a registry of well-typed channels maps the per-channel
helper over the list. -/
theorem pushToChannels_map_some (cs : List (Chan RlogMsg)) (m : RlogMsg) :
    pushToChannels (cs.map some) m =
      .ok (cs.map (fun c => pushToChannelsHelper c m)) := by
  induction cs with
  | nil => rfl
  | cons c rest ih => simp [pushToChannels, ih]

/-- Lookup in a hash table built by createAndFillStringHt is membership in
the tag list. -/
theorem htLookup_createAndFill (tags : List String) (tag : String) :
    htLookup (createAndFillStringHt tags) tag = true ↔ tag ∈ tags := by
  induction tags with
  | nil => simp [htLookup, createAndFillStringHt]
  | cons t ts ih =>
    by_cases h : t = tag
    · subst h
      simp [htLookup, createAndFillStringHt, List.find?]
    · have hbeq : (t == tag) = false := by
        simp [h]
      simp only [createAndFillStringHt, List.map_cons, htLookup, List.find?, hbeq] at ih ⊢
      simp only [List.mem_cons]
      rw [ih]
      constructor
      · exact fun hm => Or.inr hm
      · rintro (hEq | hm)
        · exact absurd hEq.symm h
        · exact hm

/-- C1: pushing five records through the bus retry path into a channel of
capacity 2 never blocks, uses at most three send attempts per record (the
eviction on a full channel is a non-blocking read that is a no-op on an empty
channel), and leaves exactly the two most recently pushed records in arrival
order. -/
theorem bounded_retry_fifo_eviction (r0 r1 r2 r3 r4 : RlogMsg) :
    (pushToChannelsHelper (pushToChannelsHelper (pushToChannelsHelper
      (pushToChannelsHelper (pushToChannelsHelper
        (⟨2, []⟩ : Chan RlogMsg) r0) r1) r2) r3) r4).buf = [r3, r4]
  ∧ (∀ (c : Chan RlogMsg) (m : RlogMsg), (pushToChannelsHelperLoop m 3 c).2 ≤ 3)
  ∧ (∀ (k : Nat), nonBlockingChanRead (⟨k, []⟩ : Chan RlogMsg) = (none, ⟨k, []⟩)) :=
  ⟨rfl, fun c m => pushToChannelsHelperLoop_sends_le m 3 c, fun _ => rfl⟩

/-- C3: the severity filter drops a severity exactly when it is strictly less
severe than the configured threshold in the spec ordering (Fatal most
severe), via the single numeric inequality of the iota encoding; a severity
equal to the threshold is never dropped. -/
theorem severity_filter_strictly_less_severe (cap ft : Nat)
    (tde tee : Option (List (String × Bool))) (s t : SevName) :
    (isFilteredSeverity ⟨cap, ft, encodeSeverity t, tde, tee⟩ (encodeSeverity s) = true
       ↔ strictlyLessSevere s t)
  ∧ isFilteredSeverity ⟨cap, ft, encodeSeverity t, tde, tee⟩ (encodeSeverity t) = false := by
  cases s <;> cases t <;>
    simp [isFilteredSeverity, encodeSeverity, strictlyLessSevere, specSeverityRank,
      SeverityFatal, SeverityError, SeverityWarning, SeverityInfo, SeverityDebug]

/-- C4 counterexample: with tag filtering in deny-except mode over the set
containing tag1 (the configuration of the repository's own tag test
program), a message carrying no tag - the untagged entry points pass the
empty tag string - is dropped by the tag filter, so the claim that an
untagged message is never dropped under any mode is false on the code. -/
theorem untagged_dropped_under_deny_except :
    isFilteredTag (DisableTagsExcept GetDefaultConfig ["tag1"]) "" = true := rfl

/-- C4 amended: the tag filter drops a message exactly when the membership of
its tag string in the configured set contradicts the active mode - in the
set under allow-except, out of the set under deny-except, nothing dropped
with no mode active - and an untagged message carries the empty tag string
and is subject to those same rules (in particular deny-except drops it
whenever the empty string is not in the configured set); setting either mode
clears the other. -/
theorem tag_filter_characterization (cap ft sev : Nat) (tags : List String) (tag : String) :
    (isFilteredTag ⟨cap, ft, sev, none, some (createAndFillStringHt tags)⟩ tag = true
       ↔ tag ∈ tags)
  ∧ (isFilteredTag ⟨cap, ft, sev, some (createAndFillStringHt tags), none⟩ tag = true
       ↔ tag ∉ tags)
  ∧ isFilteredTag ⟨cap, ft, sev, none, none⟩ tag = false
  ∧ (∀ c : RlogConfig, (EnableTagsExcept c tags).tagsDisabledExcept = none
       ∧ (DisableTagsExcept c tags).tagsEnabledExcept = none) := by
  refine ⟨?_, ?_, rfl, fun c => ⟨rfl, rfl⟩⟩
  · simpa [isFilteredTag] using htLookup_createAndFill tags tag
  · simp only [isFilteredTag]
    rw [Bool.not_eq_eq_eq_not]
    simp only [Bool.not_true]
    rw [← Bool.not_eq_true (htLookup (createAndFillStringHt tags) tag)]
    rw [not_iff_not.symm]
    simp [htLookup_createAndFill tags tag]

/-- C5: the flush helper reports failure at once when the capacity-1
flush-request channel already holds an unconsumed request; otherwise it
deposits the fresh ack channel and reports success exactly when the module
acknowledges before the configured timeout, reporting failure (not aborting)
on timeout. -/
theorem flush_helper_pending_and_ack (pending ack : Bool) :
    (pending = true → flushHelper pending ack = false)
  ∧ (pending = false → (flushHelper pending ack = true ↔ ack = true)) := by
  cases pending <;> cases ack <;> simp [flushHelper]

/-- C5 witness at concrete inputs. -/
theorem flush_helper_pending_and_ack_witness :
    flushHelper true true = false ∧ (flushHelper false false = true ↔ false = true) :=
  ⟨(flush_helper_pending_and_ack true true).1 rfl,
   (flush_helper_pending_and_ack false false).2 rfl⟩

/-- C8: evaluation at the failing input.  An ill-typed entry in the flush
registry does not abort the whole-system flush: the iteration continues and
the well-typed module after it is still flushed (first conjunct), and an
empty result comes back rather than an abort when the bad entry is alone
(second conjunct); the parallel broadcast path by contrast does abort
fatally on an ill-typed message-channel entry (third conjunct). -/
theorem flush_continues_past_ill_typed_entry :
    Flush [none, some (false, true)] = [true]
  ∧ Flush [none] = []
  ∧ pushToChannels [none] ⟨"", "", SeverityError, 0, ""⟩ =
      .error "type assertion for msg channel failed" :=
  ⟨rfl, rfl, rfl⟩

/-- A state with a module registered (EnableModule) but Start never called:
the initialized flag is still false while the module registry is not empty. -/
def moduleRegisteredNotStarted : GlobalState :=
  { initialized := false, config := emptyRlogConfig,
    msgChannels := [], flushChannels := [], activeModules := [()] }

/-- C9 counterexample: called on an uninitialized state that already has a
registered module, ResetState changes nothing, so the registered-modules
registry stays non-empty - the claim that ResetState empties all three
registries from every prior state is false on the code. -/
theorem reset_state_keeps_unstarted_module_registry :
    ResetState moduleRegisteredNotStarted = moduleRegisteredNotStarted
  ∧ (ResetState moduleRegisteredNotStarted).activeModules ≠ [] :=
  ⟨rfl, by decide⟩

/-- C9 amended: when the logger is initialized, ResetState leaves the system
uninitialized with the configuration reset to the zero value and all three
registries empty; when it is not initialized, ResetState is a no-op. -/
theorem reset_state_amended (st : GlobalState) :
    (st.initialized = true →
       ResetState st = { initialized := false, config := emptyRlogConfig,
                         msgChannels := [], flushChannels := [], activeModules := [] })
  ∧ (st.initialized = false → ResetState st = st) := by
  constructor <;> intro h <;> simp [ResetState, h]

/-- A started state with one module bound, used to instantiate the amended
reset claim. -/
def startedState : GlobalState :=
  { initialized := true, config := GetDefaultConfig,
    msgChannels := [some ⟨2, []⟩], flushChannels := [some (false, true)],
    activeModules := [()] }

/-- C9 witness: the amended claim applied to a concrete initialized state. -/
theorem reset_state_amended_witness :
    ResetState startedState = { initialized := false, config := emptyRlogConfig,
                                msgChannels := [], flushChannels := [],
                                activeModules := [] } :=
  (reset_state_amended startedState).1 rfl

/-- C2: broadcasting one record over registered channels that all have spare
capacity deposits exactly one copy of the record at the back of every
channel - none skipped, none doubled - and each channel's outcome is the
per-channel helper applied to that channel alone, independent of the other
channels' states. -/
theorem broadcast_fanout (cs : List (Chan RlogMsg)) (m : RlogMsg)
    (h : ∀ c ∈ cs, c.buf.length < c.cap) :
    pushToChannels (cs.map some) m =
      .ok (cs.map (fun c => { c with buf := c.buf ++ [m] }))
  ∧ pushToChannels (cs.map some) m =
      .ok (cs.map (fun c => pushToChannelsHelper c m)) := by
  have hmap : cs.map (fun c => pushToChannelsHelper c m) =
      cs.map (fun c => { c with buf := c.buf ++ [m] }) :=
    List.map_congr_left (fun c hc => pushToChannelsHelper_capacity_free c m (h c hc))
  refine ⟨?_, pushToChannels_map_some cs m⟩
  rw [pushToChannels_map_some cs m, hmap]

/-- C2 witness: two registered capacity-2 channels, one broadcast, one copy
in each. -/
theorem broadcast_fanout_witness :
    pushToChannels ([(⟨2, []⟩ : Chan RlogMsg), ⟨2, []⟩].map some) ⟨"x", "", 1, 0, ""⟩ =
      .ok ([(⟨2, []⟩ : Chan RlogMsg), ⟨2, []⟩].map
        (fun c => { c with buf := c.buf ++ [⟨"x", "", 1, 0, ""⟩] })) :=
  (broadcast_fanout [⟨2, []⟩, ⟨2, []⟩] ⟨"x", "", 1, 0, ""⟩ (by decide)).1

/-- A registry whose entries all pass the type assertion never makes the
broadcast panic. -/
theorem pushToChannels_wellTyped_ok (entries : List (Option (Chan RlogMsg))) (m : RlogMsg)
    (h : ∀ e ∈ entries, e.isSome = true) :
    ∃ cs, pushToChannels entries m = .ok cs := by
  induction entries with
  | nil => exact ⟨[], rfl⟩
  | cons e rest ih =>
    cases e with
    | none => simpa using h none (by simp)
    | some c =>
      obtain ⟨cs, hcs⟩ := ih (fun x hx => h x (List.mem_cons_of_mem _ hx))
      exact ⟨pushToChannelsHelper c m :: cs, by simp [pushToChannels, hcs]⟩

/-- Once initialized, every terminating run of the handler reports true. -/
theorem genericLogHandler_ok_true (st : GlobalState) (level tag formatted : String)
    (severity : RlogSeverity) (posInfo : Bool) (o : CallOracle) (b : Bool)
    (st2 : GlobalState) (h : st.initialized = true)
    (heq : genericLogHandler st level tag formatted severity posInfo o = .ok (b, st2)) :
    b = true := by
  simp only [genericLogHandler, h, Bool.not_true, Bool.false_eq_true, if_false] at heq
  by_cases hf : (isFilteredSeverity st.config severity || isFilteredTag st.config tag) = true
  · rw [if_pos hf] at heq
    simp only [Except.ok.injEq, Prod.mk.injEq] at heq
    exact heq.1.symm
  · rw [if_neg hf] at heq
    cases hb : buildLogRecord level formatted severity posInfo o with
    | none => rw [hb] at heq; exact absurd heq (by simp)
    | some r =>
      rw [hb] at heq
      cases hp : pushToChannels st.msgChannels r with
      | error e => simp only [hp, Except.error.injEq, reduceCtorEq] at heq
      | ok cs =>
        simp only [hp, Except.ok.injEq, Prod.mk.injEq] at heq
        exact heq.1.symm

/-- C6: the handler reports false exactly when the logger has not been
started, and then leaves the state untouched (no filtering, construction or
broadcast - the result does not depend on the configuration, the oracle or
the registries); once started it reports true even for a message dropped by
the severity or tag filter, and with a well-typed registry (and a resolvable
stack for the two severities that capture one) it completes with true rather
than raising anything. -/
theorem log_handler_started_signal (st : GlobalState) (level tag formatted : String)
    (severity : RlogSeverity) (posInfo : Bool) (o : CallOracle) :
    (st.initialized = false →
       genericLogHandler st level tag formatted severity posInfo o = .ok (false, st))
  ∧ (st.initialized = true →
       (isFilteredSeverity st.config severity || isFilteredTag st.config tag) = true →
       genericLogHandler st level tag formatted severity posInfo o = .ok (true, st))
  ∧ (st.initialized = true →
       (∀ e ∈ st.msgChannels, e.isSome = true) →
       (severity ≤ SeverityError → (getStackTrace o.rawStack).isSome = true) →
       ∃ st2, genericLogHandler st level tag formatted severity posInfo o = .ok (true, st2))
  ∧ (∀ (b : Bool) (st2 : GlobalState),
       genericLogHandler st level tag formatted severity posInfo o = .ok (b, st2) →
       (b = false ↔ st.initialized = false)) := by
  refine ⟨?_, ?_, ?_, ?_⟩
  · intro h; simp [genericLogHandler, h]
  · intro h hf; simp [genericLogHandler, h, hf]
  · intro h hwt hstack
    have hbuild : ∃ r, buildLogRecord level formatted severity posInfo o = some r := by
      unfold buildLogRecord
      by_cases hs : severity ≤ SeverityError
      · obtain ⟨s, hs2⟩ := Option.isSome_iff_exists.mp (hstack hs)
        rw [if_pos hs, hs2]
        exact ⟨_, rfl⟩
      · rw [if_neg hs]
        exact ⟨_, rfl⟩
    obtain ⟨r, hr⟩ := hbuild
    by_cases hf : (isFilteredSeverity st.config severity || isFilteredTag st.config tag) = true
    · exact ⟨st, by simp [genericLogHandler, h, hf]⟩
    · obtain ⟨cs, hcs⟩ := pushToChannels_wellTyped_ok st.msgChannels r hwt
      refine ⟨{ st with msgChannels := cs.map some }, ?_⟩
      rw [Bool.not_eq_true] at hf
      simp [genericLogHandler, h, hf, hr, hcs]
  · intro b st2 heq
    by_cases h : st.initialized = true
    · have hb := genericLogHandler_ok_true st level tag formatted severity posInfo o b st2 h heq
      subst hb
      simp [h]
    · rw [Bool.not_eq_true] at h
      have : genericLogHandler st level tag formatted severity posInfo o = .ok (false, st) := by
        simp [genericLogHandler, h]
      rw [this] at heq
      have hb := (Prod.mk.injEq _ _ _ _ ▸ Except.ok.injEq _ _ ▸ heq.symm).1
      subst hb
      simp [h]

/-- The logger-off state: nothing registered and Start never called. -/
def offState : GlobalState :=
  { initialized := false, config := GetDefaultConfig,
    msgChannels := [], flushChannels := [], activeModules := [] }

/-- A started state with one bound capacity-2 channel. -/
def onState : GlobalState :=
  { initialized := true, config := GetDefaultConfig,
    msgChannels := [some ⟨2, []⟩], flushChannels := [], activeModules := [] }

/-- The concrete runtime oracle used by the witnesses: a resolvable call
site and a raw stack of eight lines whose remainder after the seven internal
lines is the text T. -/
def oracle0 : CallOracle :=
  { callerOk := true, pc := 7, file := "f.go", line := 42,
    rawStack := "a\nb\nc\nd\ne\nf\ng\nT", timestamp := "ts" }

/-- C6 witness: before Start the handler reports false and changes nothing;
after Start it completes with true. -/
theorem log_handler_started_signal_witness :
    genericLogHandler offState "INFO" "" "m" SeverityInfo false oracle0 = .ok (false, offState)
  ∧ ∃ st2, genericLogHandler onState "INFO" "" "m" SeverityInfo false oracle0 =
      .ok (true, st2) :=
  ⟨(log_handler_started_signal offState "INFO" "" "m" SeverityInfo false oracle0).1 rfl,
   (log_handler_started_signal onState "INFO" "" "m" SeverityInfo false oracle0).2.2.1
     rfl (by decide) (by decide)⟩

/-- C7: a record built by the handler carries the processed runtime stack
text exactly when its severity is Fatal or Error and the empty trace
otherwise (no capture is attempted for Warning, Info or Debug); whenever the
processed stack text is non-empty - as a real runtime stack always is - the
record's trace is non-empty exactly for Fatal and Error. -/
theorem stack_trace_presence (level formatted : String) (severity : RlogSeverity)
    (posInfo : Bool) (o : CallOracle) (r : RlogMsg)
    (hr : buildLogRecord level formatted severity posInfo o = some r) :
    (SeverityError < severity → r.StackTrace = "")
  ∧ (severity ≤ SeverityError → getStackTrace o.rawStack = some r.StackTrace)
  ∧ ((getStackTrace o.rawStack).getD "" ≠ "" →
       (r.StackTrace ≠ "" ↔ (severity = SeverityFatal ∨ severity = SeverityError))) := by
  by_cases hs : severity ≤ SeverityError
  · cases hst : getStackTrace o.rawStack with
    | none =>
      rw [buildLogRecord, if_pos hs, hst] at hr
      exact absurd hr (by simp)
    | some s =>
      rw [buildLogRecord, if_pos hs, hst] at hr
      have hre : r = generateLogMsg
          { level := level, msg := formatted, severity := severity, posInfo := posInfo,
            file := (getLogCallPos o).2.1, line := (getLogCallPos o).2.2,
            pc := (getLogCallPos o).1, stackTrace := s } o.timestamp :=
        (Option.some.inj hr).symm
      subst hre
      have hs1 : severity ≤ 1 := hs
      refine ⟨?_, ?_, ?_⟩
      · intro hlt
        exfalso
        have hlt1 : 1 < severity := hlt
        exact absurd hs1 (Nat.not_le.mpr hlt1)
      · intro _
        rfl
      · intro hne
        have hne2 : s ≠ "" := by simpa using hne
        show s ≠ "" ↔ severity = SeverityFatal ∨ severity = SeverityError
        constructor
        · intro _
          exact Nat.le_one_iff_eq_zero_or_eq_one.mp hs1
        · intro _
          exact hne2
  · rw [buildLogRecord, if_neg hs] at hr
    have hre : r = generateLogMsg
        { level := level, msg := formatted, severity := severity, posInfo := posInfo,
          file := (getLogCallPos o).2.1, line := (getLogCallPos o).2.2,
          pc := (getLogCallPos o).1, stackTrace := "" } o.timestamp :=
      (Option.some.inj hr).symm
    subst hre
    have hs1 : ¬(severity ≤ 1) := hs
    refine ⟨fun _ => rfl, fun hle => absurd hle hs, ?_⟩
    intro _
    show ("" : String) ≠ "" ↔ severity = SeverityFatal ∨ severity = SeverityError
    constructor
    · intro hcon; exact absurd rfl hcon
    · intro hor
      exfalso
      have hor1 : severity = 0 ∨ severity = 1 := hor
      exact hs1 (Nat.le_one_iff_eq_zero_or_eq_one.mpr hor1)

/-- C7 witness: an Error-severity record built over the concrete oracle
carries the non-empty trace T, and the presence equivalence holds there. -/
theorem stack_trace_presence_witness :
    ∃ r, buildLogRecord "ERROR" "boom" SeverityError true oracle0 = some r
      ∧ (r.StackTrace ≠ "" ↔ (SeverityError = SeverityFatal ∨ SeverityError = SeverityError)) := by
  refine ⟨⟨"<ERROR> [f.go:42] boom", "ts", SeverityError, 7, "T"⟩, rfl, ?_⟩
  exact (stack_trace_presence "ERROR" "boom" SeverityError true oracle0 _ rfl).2.2 (by decide)

/-- The text of every record the handler builds is the formatted header
followed by the expanded message. -/
theorem buildLogRecord_msg (level formatted : String) (severity : RlogSeverity)
    (posInfo : Bool) (o : CallOracle) (r : RlogMsg)
    (hr : buildLogRecord level formatted severity posInfo o = some r) :
    r.Msg = formatHeaders posInfo level (getLogCallPos o).2.1 (getLogCallPos o).2.2
      ++ formatted := by
  rw [buildLogRecord] at hr
  cases htr : (if severity ≤ SeverityError then getStackTrace o.rawStack else some "") with
  | none => rw [htr] at hr; exact absurd hr (by simp)
  | some t =>
    rw [htr] at hr
    have hre := (Option.some.inj hr).symm
    subst hre
    rfl

/-- C10: only the Fatal and Error entry points (tagged or not) invoke the
handler with position info enabled, so only their records get the caller's
file and line in the header; the Warning, Info and Debug entry points pass
posInfo false and their records' headers hold the level name alone, with no
file or line for any call site, since the posInfo-false header does not
depend on file or line at all. -/
theorem position_info_only_fatal_error (st : GlobalState) (tag formatted level file : String)
    (line : Nat) (o : CallOracle) :
    (formatHeaders false level file line = "<" ++ level ++ "> ")
  ∧ (formatHeaders true level file line =
      "<" ++ level ++ "> " ++ "[" ++ file ++ ":" ++ toString line ++ "] ")
  ∧ (Fatal st formatted o =
      (genericLogHandler st "FATAL" "" formatted SeverityFatal true o).map (fun r => r.2))
  ∧ (Error st formatted o =
      (genericLogHandler st "ERROR" "" formatted SeverityError true o).map (fun r => r.2))
  ∧ (Warning st formatted o =
      (genericLogHandler st "WARNING" "" formatted SeverityWarning false o).map (fun r => r.2))
  ∧ (Info st formatted o =
      (genericLogHandler st "INFO" "" formatted SeverityInfo false o).map (fun r => r.2))
  ∧ (Debug st formatted o =
      (genericLogHandler st "DEBUG" "" formatted SeverityDebug false o).map (fun r => r.2))
  ∧ (FatalT st tag formatted o =
      (genericLogHandler st "FATAL" tag formatted SeverityFatal true o).map (fun r => r.2))
  ∧ (ErrorT st tag formatted o =
      (genericLogHandler st "ERROR" tag formatted SeverityError true o).map (fun r => r.2))
  ∧ (WarningT st tag formatted o =
      (genericLogHandler st "WARNING" tag formatted SeverityWarning false o).map (fun r => r.2))
  ∧ (InfoT st tag formatted o =
      (genericLogHandler st "INFO" tag formatted SeverityInfo false o).map (fun r => r.2))
  ∧ (DebugT st tag formatted o =
      (genericLogHandler st "DEBUG" tag formatted SeverityDebug false o).map (fun r => r.2))
  ∧ (∀ r, buildLogRecord "WARNING" formatted SeverityWarning false o = some r →
      r.Msg = "<WARNING> " ++ formatted)
  ∧ (∀ r, buildLogRecord "INFO" formatted SeverityInfo false o = some r →
      r.Msg = "<INFO> " ++ formatted)
  ∧ (∀ r, buildLogRecord "DEBUG" formatted SeverityDebug false o = some r →
      r.Msg = "<DEBUG> " ++ formatted)
  ∧ (∀ r, buildLogRecord "FATAL" formatted SeverityFatal true o = some r →
      r.Msg = "<FATAL> [" ++ (getLogCallPos o).2.1 ++ ":"
        ++ toString (getLogCallPos o).2.2 ++ "] " ++ formatted)
  ∧ (∀ r, buildLogRecord "ERROR" formatted SeverityError true o = some r →
      r.Msg = "<ERROR> [" ++ (getLogCallPos o).2.1 ++ ":"
        ++ toString (getLogCallPos o).2.2 ++ "] " ++ formatted) := by
  refine ⟨rfl, rfl, rfl, rfl, rfl, rfl, rfl, rfl, rfl, rfl, rfl, rfl, ?_, ?_, ?_, ?_, ?_⟩ <;>
    intro r hr <;> rw [buildLogRecord_msg _ _ _ _ _ _ hr] <;> rfl

/-- C10 witness: a concrete Warning record has the bare level header and a
concrete Error record carries file and line. -/
theorem position_info_only_fatal_error_witness :
    (∃ r, buildLogRecord "WARNING" "w" SeverityWarning false oracle0 = some r
       ∧ r.Msg = "<WARNING> " ++ "w")
  ∧ (∃ r, buildLogRecord "ERROR" "w" SeverityError true oracle0 = some r
       ∧ r.Msg = "<ERROR> [" ++ (getLogCallPos oracle0).2.1 ++ ":"
           ++ toString (getLogCallPos oracle0).2.2 ++ "] " ++ "w") := by
  constructor
  · refine ⟨⟨"<WARNING> w", "ts", SeverityWarning, 7, ""⟩, rfl, ?_⟩
    exact (position_info_only_fatal_error offState "t" "w" "L" "F" 0
      oracle0).2.2.2.2.2.2.2.2.2.2.2.2.1 _ rfl
  · refine ⟨⟨"<ERROR> [f.go:42] w", "ts", SeverityError, 7, "T"⟩, rfl, ?_⟩
    exact (position_info_only_fatal_error offState "t" "w" "L" "F" 0
      oracle0).2.2.2.2.2.2.2.2.2.2.2.2.2.2.2.2 _ rfl

end Rlog
